import Mathlib

/-!
Verification of `Sources/ImplicitsCUtils/include/performance_measuring.h`.

The header defines, via the `SUBJECT_ENUMERATION` X-macro, a closed
`uint64_t`-backed enumeration of ten measurement subjects, declares three
external per-subject functions for each subject
(`RecordMeasurementFor<S>`, `GetAccumulatedMetricFor<S>`, `GetCounterFor<S>`),
and generates three dispatchers (`RecordMeasurement`, `GetAccumulatedMetricFor`,
`GetCounterFor`) that switch on the subject ordinal, with a `default` branch
that is a no-op for recording and returns 0 for both readers.

The per-subject functions are declared but implemented outside this
repository; they are modelled here from the specification: each subject owns
two counters (an accumulated nanosecond total and a sample count, both 0
initially), the recorder folds `ns` into the total and increments the count of
its own subject only, and the readers return the current values and mutate
nothing. State is passed explicitly; readers return a value together with the
(unchanged) state so that purity of reads is a provable statement rather than
a typing artifact.
-/

/-- Subject enumeration generated by `SUBJECT_ENUMERATION` in the header,
in registry order. -/
inductive Subject where
  | Control
  | ImplicitsWithUnsafeKeys
  | RawStoreOnRootScopeCreation
  | RawStoreOnRootScopeEnd
  | RawStoreSubscriptSet
  | RawStoreSubscriptGet
  | RawStoreCurrent
  | RawStoreFromTSD
  | TypedStoreSubscriptGet
  | TypedStoreSetValue
  deriving DecidableEq, Repr, Fintype

/-- Ordinal value of each enum member: C enum members without explicit values
count up from 0 in declaration order. -/
def Subject.ordinal : Subject → Nat
  | .Control => 0
  | .ImplicitsWithUnsafeKeys => 1
  | .RawStoreOnRootScopeCreation => 2
  | .RawStoreOnRootScopeEnd => 3
  | .RawStoreSubscriptSet => 4
  | .RawStoreSubscriptGet => 5
  | .RawStoreCurrent => 6
  | .RawStoreFromTSD => 7
  | .TypedStoreSubscriptGet => 8
  | .TypedStoreSetValue => 9

/-- Registry: the ordered list of subjects exactly as listed in
`SUBJECT_ENUMERATION`. -/
def subjects : List Subject :=
  [.Control, .ImplicitsWithUnsafeKeys, .RawStoreOnRootScopeCreation,
   .RawStoreOnRootScopeEnd, .RawStoreSubscriptSet, .RawStoreSubscriptGet,
   .RawStoreCurrent, .RawStoreFromTSD, .TypedStoreSubscriptGet,
   .TypedStoreSetValue]

/-- Per-subject aggregate state: accumulated nanosecond total and sample
count (spec section 3). -/
structure SubjectState where
  accumulated : Nat
  counter : Nat
  deriving DecidableEq, Repr

/-- Process-wide measurement state: one `SubjectState` per subject. -/
def MeasurementState : Type := Subject → SubjectState

/-- State before anything is recorded: both counters are 0 for every
subject. -/
def initialState : MeasurementState := fun _ => ⟨0, 0⟩

/-- Modelled from the spec: the per-subject recorder
`RecordMeasurementFor<S>(uint64_t ns)` is declared in the header but
implemented externally. Per spec section 4.2 it folds `ns` into that
subject's accumulated total and increments its count; per section 3 the
state is "mutated only by that subject's own recording function", so every
other subject's state is untouched. -/
def recordMeasurementForSubject (s : Subject) (ns : Nat)
    (st : MeasurementState) : MeasurementState :=
  fun t =>
    if t = s then ⟨(st t).accumulated + ns, (st t).counter + 1⟩ else st t

/-- Modelled from the spec: the per-subject reader
`GetAccumulatedMetricFor<S>(void)` is declared in the header but implemented
externally. Per spec section 4.2 it "returns the current accumulated total;
never fails"; state is mutated only by recorders, so the state component is
returned unchanged. -/
def getAccumulatedMetricForSubject (s : Subject) (st : MeasurementState) :
    Nat × MeasurementState :=
  ((st s).accumulated, st)

/-- Modelled from the spec: the per-subject reader `GetCounterFor<S>(void)`
is declared in the header but implemented externally. Per spec section 4.2
it "returns the current count; never fails"; the state is returned
unchanged. -/
def getCounterForSubject (s : Subject) (st : MeasurementState) :
    Nat × MeasurementState :=
  ((st s).counter, st)

/-- Dispatcher `RecordMeasurement(subject, ns)` from the header: a switch
over the ten enum ordinals generated by `CASE_RECORD_MEASUREMENT`, each case
calling that subject's recorder; the `default` branch does nothing. The
subject parameter is the raw `uint64_t` value, so any natural number may
arrive here. -/
def RecordMeasurement (subject ns : Nat) (st : MeasurementState) :
    MeasurementState :=
  match subject with
  | 0 => recordMeasurementForSubject .Control ns st
  | 1 => recordMeasurementForSubject .ImplicitsWithUnsafeKeys ns st
  | 2 => recordMeasurementForSubject .RawStoreOnRootScopeCreation ns st
  | 3 => recordMeasurementForSubject .RawStoreOnRootScopeEnd ns st
  | 4 => recordMeasurementForSubject .RawStoreSubscriptSet ns st
  | 5 => recordMeasurementForSubject .RawStoreSubscriptGet ns st
  | 6 => recordMeasurementForSubject .RawStoreCurrent ns st
  | 7 => recordMeasurementForSubject .RawStoreFromTSD ns st
  | 8 => recordMeasurementForSubject .TypedStoreSubscriptGet ns st
  | 9 => recordMeasurementForSubject .TypedStoreSetValue ns st
  | _ => st

/-- Dispatcher `GetAccumulatedMetricFor(subject)` from the header: a switch
generated by `CASE_GET_ACCUMULATED_METRIC`, each case returning that
subject's reader result; the `default` branch returns 0. -/
def GetAccumulatedMetricFor (subject : Nat) (st : MeasurementState) :
    Nat × MeasurementState :=
  match subject with
  | 0 => getAccumulatedMetricForSubject .Control st
  | 1 => getAccumulatedMetricForSubject .ImplicitsWithUnsafeKeys st
  | 2 => getAccumulatedMetricForSubject .RawStoreOnRootScopeCreation st
  | 3 => getAccumulatedMetricForSubject .RawStoreOnRootScopeEnd st
  | 4 => getAccumulatedMetricForSubject .RawStoreSubscriptSet st
  | 5 => getAccumulatedMetricForSubject .RawStoreSubscriptGet st
  | 6 => getAccumulatedMetricForSubject .RawStoreCurrent st
  | 7 => getAccumulatedMetricForSubject .RawStoreFromTSD st
  | 8 => getAccumulatedMetricForSubject .TypedStoreSubscriptGet st
  | 9 => getAccumulatedMetricForSubject .TypedStoreSetValue st
  | _ => (0, st)

/-- Dispatcher `GetCounterFor(subject)` from the header: a switch generated
by `CASE_GET_COUNTER`, each case returning that subject's reader result; the
`default` branch returns 0. -/
def GetCounterFor (subject : Nat) (st : MeasurementState) :
    Nat × MeasurementState :=
  match subject with
  | 0 => getCounterForSubject .Control st
  | 1 => getCounterForSubject .ImplicitsWithUnsafeKeys st
  | 2 => getCounterForSubject .RawStoreOnRootScopeCreation st
  | 3 => getCounterForSubject .RawStoreOnRootScopeEnd st
  | 4 => getCounterForSubject .RawStoreSubscriptSet st
  | 5 => getCounterForSubject .RawStoreSubscriptGet st
  | 6 => getCounterForSubject .RawStoreCurrent st
  | 7 => getCounterForSubject .RawStoreFromTSD st
  | 8 => getCounterForSubject .TypedStoreSubscriptGet st
  | 9 => getCounterForSubject .TypedStoreSetValue st
  | _ => (0, st)

/-- Replay of a sequence of `RecordMeasurement` calls: each event is a raw
subject value paired with a nanosecond value, applied left to right. -/
def replayEvents (events : List (Nat × Nat)) (st : MeasurementState) :
    MeasurementState :=
  events.foldl (fun acc e => RecordMeasurement e.1 e.2 acc) st

/-! Helper lemmas shared by the claim theorems. -/

theorem ordinal_lt_ten (s : Subject) : s.ordinal < 10 := by
  cases s <;> simp [Subject.ordinal]

theorem exists_subject_of_lt {n : Nat} (h : n < 10) :
    ∃ t : Subject, t.ordinal = n := by
  interval_cases n
  · exact ⟨.Control, rfl⟩
  · exact ⟨.ImplicitsWithUnsafeKeys, rfl⟩
  · exact ⟨.RawStoreOnRootScopeCreation, rfl⟩
  · exact ⟨.RawStoreOnRootScopeEnd, rfl⟩
  · exact ⟨.RawStoreSubscriptSet, rfl⟩
  · exact ⟨.RawStoreSubscriptGet, rfl⟩
  · exact ⟨.RawStoreCurrent, rfl⟩
  · exact ⟨.RawStoreFromTSD, rfl⟩
  · exact ⟨.TypedStoreSubscriptGet, rfl⟩
  · exact ⟨.TypedStoreSetValue, rfl⟩

theorem ordinal_inj {a b : Subject} (h : a.ordinal = b.ordinal) : a = b := by
  cases a <;> cases b <;> simp_all [Subject.ordinal]

theorem ge_ten_of_not_member {n : Nat}
    (h : ∀ s : Subject, n ≠ s.ordinal) : 10 ≤ n := by
  have h0 := h .Control
  have h1 := h .ImplicitsWithUnsafeKeys
  have h2 := h .RawStoreOnRootScopeCreation
  have h3 := h .RawStoreOnRootScopeEnd
  have h4 := h .RawStoreSubscriptSet
  have h5 := h .RawStoreSubscriptGet
  have h6 := h .RawStoreCurrent
  have h7 := h .RawStoreFromTSD
  have h8 := h .TypedStoreSubscriptGet
  have h9 := h .TypedStoreSetValue
  simp only [Subject.ordinal] at h0 h1 h2 h3 h4 h5 h6 h7 h8 h9
  omega

theorem record_dispatch_valid (s : Subject) (ns : Nat)
    (st : MeasurementState) :
    RecordMeasurement s.ordinal ns st = recordMeasurementForSubject s ns st := by
  cases s <;> rfl

theorem acc_dispatch_valid (s : Subject) (st : MeasurementState) :
    GetAccumulatedMetricFor s.ordinal st = ((st s).accumulated, st) := by
  cases s <;> rfl

theorem cnt_dispatch_valid (s : Subject) (st : MeasurementState) :
    GetCounterFor s.ordinal st = ((st s).counter, st) := by
  cases s <;> rfl

theorem record_dispatch_invalid {n : Nat} (ns : Nat)
    (st : MeasurementState) (h : 10 ≤ n) :
    RecordMeasurement n ns st = st := by
  obtain ⟨k, rfl⟩ := Nat.exists_eq_add_of_le' h
  rfl

theorem acc_dispatch_invalid {n : Nat} (st : MeasurementState)
    (h : 10 ≤ n) : GetAccumulatedMetricFor n st = (0, st) := by
  obtain ⟨k, rfl⟩ := Nat.exists_eq_add_of_le' h
  rfl

theorem cnt_dispatch_invalid {n : Nat} (st : MeasurementState)
    (h : 10 ≤ n) : GetCounterFor n st = (0, st) := by
  obtain ⟨k, rfl⟩ := Nat.exists_eq_add_of_le' h
  rfl

theorem recordForSubject_self (s : Subject) (ns : Nat)
    (st : MeasurementState) :
    recordMeasurementForSubject s ns st s =
      ⟨(st s).accumulated + ns, (st s).counter + 1⟩ := by
  simp [recordMeasurementForSubject]

theorem recordForSubject_other {s t : Subject} (ns : Nat)
    (st : MeasurementState) (h : t ≠ s) :
    recordMeasurementForSubject s ns st t = st t := by
  simp [recordMeasurementForSubject, h]

theorem record_other_subject {n : Nat} (ns : Nat) {s : Subject}
    (st : MeasurementState) (h : n ≠ s.ordinal) :
    RecordMeasurement n ns st s = st s := by
  rcases Nat.lt_or_ge n 10 with hlt | hge
  · obtain ⟨t, ht⟩ := exists_subject_of_lt hlt
    rw [← ht] at h ⊢
    rw [record_dispatch_valid]
    exact recordForSubject_other ns st (fun hst => h (by rw [hst]))
  · rw [record_dispatch_invalid ns st hge]

theorem replay_cons (e : Nat × Nat) (rest : List (Nat × Nat))
    (st : MeasurementState) :
    replayEvents (e :: rest) st =
      replayEvents rest (RecordMeasurement e.1 e.2 st) := rfl

theorem replay_same_subject (s : Subject) (vs : List Nat)
    (st : MeasurementState) :
    (replayEvents (vs.map fun v => (s.ordinal, v)) st) s =
      ⟨(st s).accumulated + vs.sum, (st s).counter + vs.length⟩ := by
  induction vs generalizing st with
  | nil => simp [replayEvents]
  | cons v vs ih =>
    rw [List.map_cons, replay_cons, record_dispatch_valid, ih]
    simp [recordMeasurementForSubject]
    omega

theorem replay_untouched {events : List (Nat × Nat)} {s : Subject}
    (st : MeasurementState) (h : ∀ e ∈ events, e.1 ≠ s.ordinal) :
    (replayEvents events st) s = st s := by
  induction events generalizing st with
  | nil => rfl
  | cons e rest ih =>
    rw [replay_cons, ih _ (fun x hx => h x (List.mem_cons_of_mem _ hx))]
    exact record_other_subject e.2 st (h e (List.mem_cons_self _ _))

/-! Claim theorems. -/

/-- Claim C1: for every valid subject and every sequence of recorded
nanosecond values replayed through `RecordMeasurement`, the accumulated
metric read equals the sum of the values and the counter read equals their
number; in particular recording 100, 200 and 300 for `Control` yields a
counter of 3 and an accumulated metric of 600. -/
theorem recorded_values_sum_and_count (s : Subject) (vs : List Nat) :
    (GetAccumulatedMetricFor s.ordinal
        (replayEvents (vs.map fun v => (s.ordinal, v)) initialState)).1 =
      vs.sum ∧
    (GetCounterFor s.ordinal
        (replayEvents (vs.map fun v => (s.ordinal, v)) initialState)).1 =
      vs.length ∧
    (GetCounterFor Subject.Control.ordinal
        (replayEvents ([100, 200, 300].map fun v =>
          (Subject.Control.ordinal, v)) initialState)).1 = 3 ∧
    (GetAccumulatedMetricFor Subject.Control.ordinal
        (replayEvents ([100, 200, 300].map fun v =>
          (Subject.Control.ordinal, v)) initialState)).1 = 600 := by
  refine ⟨?_, ?_, rfl, rfl⟩
  · rw [acc_dispatch_valid, replay_same_subject]
    simp [initialState]
  · rw [cnt_dispatch_valid, replay_same_subject]
    simp [initialState]

/-- Claim C2: a subject value outside the ten enumeration members makes
`RecordMeasurement` a silent no-op on the whole state, and both readers
return 0 on it, with no error channel involved. -/
theorem invalid_subject_noop (n ns : Nat) (st : MeasurementState)
    (h : ∀ s : Subject, n ≠ s.ordinal) :
    RecordMeasurement n ns st = st ∧
    (GetAccumulatedMetricFor n st).1 = 0 ∧
    (GetCounterFor n st).1 = 0 := by
  have hge := ge_ten_of_not_member h
  exact ⟨record_dispatch_invalid ns st hge,
    by rw [acc_dispatch_invalid st hge],
    by rw [cnt_dispatch_invalid st hge]⟩

theorem invalid_subject_noop_witness :
    RecordMeasurement 10 5 initialState = initialState ∧
    (GetAccumulatedMetricFor 10 initialState).1 = 0 ∧
    (GetCounterFor 10 initialState).1 = 0 :=
  invalid_subject_noop 10 5 initialState
    (by intro s; cases s <;> simp [Subject.ordinal])

/-- Claim C3: recording for a valid subject A leaves the accumulated metric
and counter of every distinct valid subject B unchanged. -/
theorem record_isolation (A B : Subject) (h : A ≠ B) (ns : Nat)
    (st : MeasurementState) :
    (GetAccumulatedMetricFor B.ordinal
        (RecordMeasurement A.ordinal ns st)).1 =
      (GetAccumulatedMetricFor B.ordinal st).1 ∧
    (GetCounterFor B.ordinal (RecordMeasurement A.ordinal ns st)).1 =
      (GetCounterFor B.ordinal st).1 := by
  have hB : RecordMeasurement A.ordinal ns st B = st B :=
    record_other_subject ns st (fun he => h (ordinal_inj he))
  rw [acc_dispatch_valid, acc_dispatch_valid, cnt_dispatch_valid,
    cnt_dispatch_valid]
  rw [hB]
  exact ⟨rfl, rfl⟩

theorem record_isolation_witness :
    (GetAccumulatedMetricFor Subject.RawStoreFromTSD.ordinal
        (RecordMeasurement Subject.Control.ordinal 7 initialState)).1 =
      (GetAccumulatedMetricFor Subject.RawStoreFromTSD.ordinal
        initialState).1 ∧
    (GetCounterFor Subject.RawStoreFromTSD.ordinal
        (RecordMeasurement Subject.Control.ordinal 7 initialState)).1 =
      (GetCounterFor Subject.RawStoreFromTSD.ordinal initialState).1 :=
  record_isolation Subject.Control Subject.RawStoreFromTSD (by decide) 7
    initialState

/-- Claim C4: on every valid subject the generic dispatchers forward to the
per-subject functions of that same subject: `RecordMeasurement` has exactly
the effect of `RecordMeasurementFor<s>`, `GetAccumulatedMetricFor` returns
exactly `GetAccumulatedMetricFor<s>`, and `GetCounterFor` returns exactly
`GetCounterFor<s>`. -/
theorem dispatcher_refines_per_subject (s : Subject) (ns : Nat)
    (st : MeasurementState) :
    RecordMeasurement s.ordinal ns st = recordMeasurementForSubject s ns st ∧
    GetAccumulatedMetricFor s.ordinal st =
      getAccumulatedMetricForSubject s st ∧
    GetCounterFor s.ordinal st = getCounterForSubject s st := by
  cases s <;> exact ⟨rfl, rfl, rfl⟩

/-- Claim C5: for a valid subject for which no record event ever ran, both
readers return 0; in particular, with nothing recorded for
`RawStoreFromTSD`, both of its reads return 0. -/
theorem never_recorded_reads_zero (s : Subject)
    (events : List (Nat × Nat)) (h : ∀ e ∈ events, e.1 ≠ s.ordinal) :
    (GetAccumulatedMetricFor s.ordinal
        (replayEvents events initialState)).1 = 0 ∧
    (GetCounterFor s.ordinal (replayEvents events initialState)).1 = 0 ∧
    (GetAccumulatedMetricFor Subject.RawStoreFromTSD.ordinal
        initialState).1 = 0 ∧
    (GetCounterFor Subject.RawStoreFromTSD.ordinal initialState).1 = 0 := by
  have hs : (replayEvents events initialState) s = initialState s :=
    replay_untouched initialState h
  refine ⟨?_, ?_, rfl, rfl⟩
  · rw [acc_dispatch_valid, hs]
    rfl
  · rw [cnt_dispatch_valid, hs]
    rfl

theorem never_recorded_reads_zero_witness :
    (GetAccumulatedMetricFor Subject.RawStoreFromTSD.ordinal
        (replayEvents [(0, 100)] initialState)).1 = 0 ∧
    (GetCounterFor Subject.RawStoreFromTSD.ordinal
        (replayEvents [(0, 100)] initialState)).1 = 0 ∧
    (GetAccumulatedMetricFor Subject.RawStoreFromTSD.ordinal
        initialState).1 = 0 ∧
    (GetCounterFor Subject.RawStoreFromTSD.ordinal initialState).1 = 0 :=
  never_recorded_reads_zero Subject.RawStoreFromTSD [(0, 100)] (by decide)

/-- Claim C6: the subject enumeration is a closed set of exactly 10 distinct
members with ordinals 0 through 9 in registry order, from `Control` at 0 to
`TypedStoreSetValue` at 9, and this ordinal fully selects which subject a
dispatcher call affects. -/
theorem subject_enumeration_closed :
    subjects.length = 10 ∧
    subjects.Nodup ∧
    (∀ s : Subject, s ∈ subjects) ∧
    subjects.map Subject.ordinal = List.range 10 ∧
    Subject.Control.ordinal = 0 ∧
    Subject.ImplicitsWithUnsafeKeys.ordinal = 1 ∧
    Subject.RawStoreOnRootScopeCreation.ordinal = 2 ∧
    Subject.RawStoreOnRootScopeEnd.ordinal = 3 ∧
    Subject.RawStoreSubscriptSet.ordinal = 4 ∧
    Subject.RawStoreSubscriptGet.ordinal = 5 ∧
    Subject.RawStoreCurrent.ordinal = 6 ∧
    Subject.RawStoreFromTSD.ordinal = 7 ∧
    Subject.TypedStoreSubscriptGet.ordinal = 8 ∧
    Subject.TypedStoreSetValue.ordinal = 9 ∧
    (∀ (s : Subject) (ns : Nat) (st : MeasurementState),
      RecordMeasurement s.ordinal ns st =
        recordMeasurementForSubject s ns st ∧
      GetAccumulatedMetricFor s.ordinal st =
        getAccumulatedMetricForSubject s st ∧
      GetCounterFor s.ordinal st = getCounterForSubject s st) := by
  refine ⟨rfl, by decide, by decide, by decide, rfl, rfl, rfl, rfl, rfl,
    rfl, rfl, rfl, rfl, rfl, ?_⟩
  intro s ns st
  cases s <;> exact ⟨rfl, rfl, rfl⟩

/-- Claim C7: reading twice in a row with no intervening record returns the
same value both times, for the accumulated metric and for the counter. -/
theorem reads_idempotent (s : Subject) (st : MeasurementState) :
    (GetAccumulatedMetricFor s.ordinal
        (GetAccumulatedMetricFor s.ordinal st).2).1 =
      (GetAccumulatedMetricFor s.ordinal st).1 ∧
    (GetCounterFor s.ordinal (GetCounterFor s.ordinal st).2).1 =
      (GetCounterFor s.ordinal st).1 := by
  cases s <;> exact ⟨rfl, rfl⟩

/-- Claim C8: all three dispatch operations are total on every raw subject
value: a value below 10 dispatches to the matching subject and each reader
returns that subject's current value, any other value takes the defensive
default (record is a no-op, both readers return 0), and no error, exception
or status code exists on either path. -/
theorem dispatch_total_no_error (n ns : Nat) (st : MeasurementState) :
    (n < 10 → ∃ s : Subject, s.ordinal = n ∧
      RecordMeasurement n ns st = recordMeasurementForSubject s ns st ∧
      GetAccumulatedMetricFor n st = ((st s).accumulated, st) ∧
      GetCounterFor n st = ((st s).counter, st)) ∧
    (10 ≤ n →
      RecordMeasurement n ns st = st ∧
      GetAccumulatedMetricFor n st = (0, st) ∧
      GetCounterFor n st = (0, st)) := by
  constructor
  · intro hlt
    obtain ⟨t, ht⟩ := exists_subject_of_lt hlt
    exact ⟨t, ht, by rw [← ht, record_dispatch_valid],
      by rw [← ht, acc_dispatch_valid], by rw [← ht, cnt_dispatch_valid]⟩
  · intro hge
    exact ⟨record_dispatch_invalid ns st hge, acc_dispatch_invalid st hge,
      cnt_dispatch_invalid st hge⟩

theorem dispatch_total_no_error_witness :
    (∃ s : Subject, s.ordinal = 3 ∧
      RecordMeasurement 3 7 initialState =
        recordMeasurementForSubject s 7 initialState ∧
      GetAccumulatedMetricFor 3 initialState =
        ((initialState s).accumulated, initialState) ∧
      GetCounterFor 3 initialState =
        ((initialState s).counter, initialState)) ∧
    (RecordMeasurement 12 7 initialState = initialState ∧
      GetAccumulatedMetricFor 12 initialState = (0, initialState) ∧
      GetCounterFor 12 initialState = (0, initialState)) :=
  ⟨(dispatch_total_no_error 3 7 initialState).1 (by decide),
   (dispatch_total_no_error 12 7 initialState).2 (by decide)⟩

/-- Claim C9: recording a zero-nanosecond sample for a valid subject
increments its counter by exactly 1 and leaves its accumulated metric
unchanged: the zero sample is counted, not discarded. -/
theorem zero_sample_counted (s : Subject) (st : MeasurementState) :
    (GetCounterFor s.ordinal (RecordMeasurement s.ordinal 0 st)).1 =
      (GetCounterFor s.ordinal st).1 + 1 ∧
    (GetAccumulatedMetricFor s.ordinal
        (RecordMeasurement s.ordinal 0 st)).1 =
      (GetAccumulatedMetricFor s.ordinal st).1 := by
  rw [record_dispatch_valid, cnt_dispatch_valid, cnt_dispatch_valid,
    acc_dispatch_valid, acc_dispatch_valid, recordForSubject_self]
  exact ⟨rfl, rfl⟩

/-- Claim C10: the read dispatchers mutate no state on any subject value,
valid or not: the state they return is the very state they were given, so
every subject's accumulated total and counter are identical before and after
any read call. -/
theorem reads_pure (n : Nat) (st : MeasurementState) :
    (GetAccumulatedMetricFor n st).2 = st ∧ (GetCounterFor n st).2 = st := by
  rcases Nat.lt_or_ge n 10 with hlt | hge
  · obtain ⟨t, ht⟩ := exists_subject_of_lt hlt
    rw [← ht]
    rw [acc_dispatch_valid, cnt_dispatch_valid]
    exact ⟨rfl, rfl⟩
  · rw [acc_dispatch_invalid st hge, cnt_dispatch_invalid st hge]
    exact ⟨rfl, rfl⟩
